import Mathlib

/-!
Shallow embedding of `create_pam_script_improved.py` (Keeper PAM bulk
onboarding script) and proofs about its specification claims.

The script reads a CSV of host/credential rows, validates and deduplicates
them, optionally filters by a TCP reachability probe, and emits a JSON
record document plus three command text files.  Python dictionaries built
for `json.dumps` are embedded as a `Json` value type whose objects keep the
insertion order of their fields (CPython dicts preserve insertion order and
`json.dumps` serializes fields in that order).  Machine integers do not
occur; all CSV and record data are strings.
-/

namespace PamOnboard

/-- The closed set of `--protocol` choices (`choices=list(_DEFAULT_PORTS)` in
`_build_cli`). -/
inductive Protocol where
  | rdp
  | ssh
  | sqlServer
  | mysql
  | postgresql
deriving DecidableEq, Repr

/-- The command-line spelling of each protocol choice (the keys of the
`_DEFAULT_PORTS` dict). -/
def protoStr : Protocol → String
  | .rdp => "rdp"
  | .ssh => "ssh"
  | .sqlServer => "sql-server"
  | .mysql => "mysql"
  | .postgresql => "postgresql"

/-- The `_DEFAULT_PORTS` dict: default port per protocol. -/
def _DEFAULT_PORTS : Protocol → Nat
  | .rdp => 3389
  | .ssh => 22
  | .sqlServer => 1433
  | .mysql => 3306
  | .postgresql => 5432

/-- One raw CSV data row as `csv.DictReader` presents it: the values of the
three relevant columns, with a missing column read as `""` (the script calls
`row.get(key, "")`).  Extra CSV columns are ignored by the script and are
not modelled. -/
structure RawRow where
  hostname : String := ""
  initial_admin_user : String := ""
  initial_admin_password : String := ""
deriving DecidableEq, Repr

/-- One validated host entry, the dict `{"hostname": h, "user": u,
"password": p}` that `_read_csv` appends. -/
structure Row where
  hostname : String
  user : String
  password : String
deriving DecidableEq, Repr

/-- The resolved command-line options (`argparse.Namespace`) that the record
generator and the writers consume.  Defaults mirror `_build_cli`. -/
structure Args where
  gatewayUid : String
  userFolder : String := "PAM_Users"
  resourceFolder : String := "PAM_Resources"
  parentFolder : Option String := none
  rotationAdminUid : Option String := none
  schedulejson : String := "\x7b\"type\":\"DAILY\",\"time\":\"02:00\",\"tz\":\"UTC\"\x7d"
  protocol : Protocol := .rdp
  os : String := "Windows"
  enableSslVerification : Bool := false
  dryRun : Bool := false
  connectivityCheck : Bool := false
deriving Repr

/-- JSON values, as built by the script for `json.dumps`.  Objects are
ordered field lists, matching CPython dict insertion order. -/
inductive Json where
  | str (s : String)
  | bool (b : Bool)
  | arr (elems : List Json)
  | obj (fields : List (String × Json))

/-- Field lookup in a JSON object (what indexing a parsed JSON dict does). -/
def Json.getField : Json → String → Option Json
  | .obj fields, key => fields.lookup key
  | _, _ => none

/-- The `$type` discriminator of a record object, when present. -/
def Json.typeOf (j : Json) : Option String :=
  match j.getField "$type" with
  | some (.str s) => some s
  | _ => none

/-- The `title` field of a record object, when present. -/
def Json.titleOf (j : Json) : Option String :=
  match j.getField "title" with
  | some (.str s) => some s
  | _ => none

/-- The `uid` field of a record object, when present. -/
def Json.uidOf (j : Json) : Option String :=
  match j.getField "uid" with
  | some (.str s) => some s
  | _ => none

/-- Read a JSON array of strings back as the strings. -/
def Json.strList : List Json → Option (List String)
  | [] => some []
  | .str s :: rest =>
    match Json.strList rest with
    | some tail => some (s :: tail)
    | none => none
  | _ :: _ => none

/-- The `links` field of a record object as a list of identifiers. -/
def Json.linksOf (j : Json) : Option (List String) :=
  match j.getField "links" with
  | some (.arr elems) => Json.strList elems
  | _ => none

/-- The machine record's `custom_fields.$pamHostname.port` value. -/
def Json.portOf (j : Json) : Option String :=
  match j.getField "custom_fields" with
  | some cf =>
    match cf.getField "$pamHostname" with
    | some ph =>
      match ph.getField "port" with
      | some (.str s) => some s
      | _ => none
    | _ => none
  | _ => none

/-! ## CSV loader (`_read_csv`) -/

/-- Python's `str.strip()` with no argument: drop leading and trailing
whitespace characters. -/
def pyStrip (s : String) : String :=
  ⟨((s.data.dropWhile Char.isWhitespace).reverse.dropWhile
      Char.isWhitespace).reverse⟩

/-- Truthiness test of `all((h, u, p))` on the stripped fields: a row is
complete when all three stripped strings are non-empty. -/
def rowComplete (r : RawRow) : Bool :=
  !(pyStrip r.hostname == "") && !(pyStrip r.initial_admin_user == "")
    && !(pyStrip r.initial_admin_password == "")

/-- The entry `_read_csv` appends for a complete row: the stripped fields. -/
def toEntry (r : RawRow) : Row :=
  ⟨pyStrip r.hostname, pyStrip r.initial_admin_user,
   pyStrip r.initial_admin_password⟩

/-- The loop body of `_read_csv` over `enumerate(reader, 1)`: returns the
appended entries together with the 1-based row numbers of the rows skipped
with an "incomplete" warning. -/
def _read_csv_aux : List RawRow → Nat → List Row × List Nat
  | [], _ => ([], [])
  | r :: rs, lineNo =>
    let rest := _read_csv_aux rs (lineNo + 1)
    if rowComplete r then (toEntry r :: rest.1, rest.2)
    else (rest.1, lineNo :: rest.2)

/-- `_read_csv`: `sys.exit(1)` (embedded as `Except.error 1`) when the path
does not exist, otherwise the ordered entry list.  `pathExists` stands for
`path.exists()`; `raws` is the parsed CSV data-row sequence. -/
def _read_csv (pathExists : Bool) (raws : List RawRow) : Except Nat (List Row) :=
  if pathExists then Except.ok (_read_csv_aux raws 1).1 else Except.error 1

/-- The warning row numbers `_read_csv` logs for a given input. -/
def readCsvWarnings (raws : List RawRow) : List Nat :=
  (_read_csv_aux raws 1).2

/-! ## Record generation (`_gen_records`) -/

/-- The folder element the generator attaches to each record. -/
def folderObj (sf : String) : Json :=
  .obj [("shared_folder", .str sf), ("can_edit", .bool true),
        ("can_share", .bool true)]

/-- The `pamUser` dict built in `_gen_records` for `row` under identifier
`uid` (`uuid.uuid4().hex` in the source). -/
def pamUserRec (uid : String) (args : Args) (row : Row) : Json :=
  .obj [("$type", .str "pamUser"), ("uid", .str uid),
        ("title", .str (row.hostname ++ " Local Admin")),
        ("login", .str row.user), ("password", .str row.password),
        ("folders", .arr [folderObj args.userFolder])]

/-- The `pamMachine` dict built in `_gen_records` for `row`, linked to the
paired credential's `uid`.  `port` is `str(_DEFAULT_PORTS[args.protocol])`. -/
def pamMachineRec (uid : String) (args : Args) (row : Row) : Json :=
  .obj [("$type", .str "pamMachine"), ("title", .str row.hostname),
        ("login", .str "stub"), ("password", .str "stub"),
        ("folders", .arr [folderObj args.resourceFolder]),
        ("custom_fields", .obj
          [("$pamSettings", .obj [("connection", .obj []), ("portForward", .obj [])]),
           ("$pamHostname", .obj
             [("hostName", .str row.hostname),
              ("port", .str (toString (_DEFAULT_PORTS args.protocol)))]),
           ("$checkbox:sslVerification", .bool args.enableSslVerification),
           ("operatingSystem", .str args.os)]),
        ("links", .arr [Json.str uid])]

/-- The loop of `_gen_records`: `seen` is the set of hostnames already
emitted (a Python `set`, queried by exact string equality), `i` indexes the
fresh-identifier supply `uids` that stands for the successive
`uuid.uuid4().hex` draws. -/
def _gen_records_aux (uids : Nat → String) (args : Args) :
    List Row → List String → Nat → List Json
  | [], _, _ => []
  | row :: rows, seen, i =>
    if row.hostname ∈ seen then _gen_records_aux uids args rows seen i
    else
      pamUserRec (uids i) args row :: pamMachineRec (uids i) args row ::
        _gen_records_aux uids args rows (row.hostname :: seen) (i + 1)

/-- `_gen_records(rows, args)` with the identifier supply made explicit. -/
def _gen_records (uids : Nat → String) (rows : List Row) (args : Args) : List Json :=
  _gen_records_aux uids args rows [] 0

/-- Spec-side comparator for the refinement of `_gen_records`: the
subsequence of `rows` keeping only the first occurrence of each hostname not
already in `seen` ("maintain a set of seen hostnames; if hostname already
seen, skip"). -/
def dedupByHost : List Row → List String → List Row
  | [], _ => []
  | row :: rows, seen =>
    if row.hostname ∈ seen then dedupByHost rows seen
    else row :: dedupByHost rows (row.hostname :: seen)

/-- Spec-side comparator for the refinement of `_gen_records`: "emit one
CredentialRecord then one MachineRecord as an adjacent pair" for every
entry, in order. -/
def recordPairs (uids : Nat → String) (args : Args) : List Row → Nat → List Json
  | [], _ => []
  | row :: rows, i =>
    pamUserRec (uids i) args row :: pamMachineRec (uids i) args row ::
      recordPairs uids args rows (i + 1)

/-! ## Output writers -/

/-- `_write(fpath, content, dry)` as its effect on the filesystem: the list
of (path, content) writes it performs.  On a dry run it logs and returns
without touching the filesystem. -/
def _write (fpath : String) (content : String) (dry : Bool) : List (String × String) :=
  if dry then [] else [(fpath, content)]

/-- `_cmdfile_header(title)`; the UTC timestamp is a parameter `ts`. -/
def _cmdfile_header (title : String) (ts : String) : String :=
  "# ==== " ++ title ++ " generated " ++ ts ++ " ===\n\n"

/-- `"\n".join(lines) + "\n"`, the file content each command writer builds. -/
def joinLines (lines : List String) : String :=
  String.intercalate "\n" lines ++ "\n"

/-- The wrapper dict `write_import_json` serializes:
`{"shared_folders": [], "records": records}`. -/
def importJson (records : List Json) : Json :=
  .obj [("shared_folders", .arr []), ("records", .arr records)]

/-- The config-creation command line of `write_setup_commands`. -/
def setupCfgCmd (args : Args) : String :=
  "keeper pam config new --environment local --title \"Config for "
    ++ args.resourceFolder ++ "\" --shared-folder \"" ++ args.resourceFolder
    ++ "\" -g " ++ args.gatewayUid ++ " --connections=on --rotation=on"

/-- The line list of `write_setup_commands`, including the optional
`folder move` lines when `--parent-folder` is set. -/
def setupLines (args : Args) (ts : String) : List String :=
  [_cmdfile_header "SETUP" ts,
   "keeper import pam_records_import.json --format json\n",
   setupCfgCmd args ++ "\n"]
    ++ (match args.parentFolder with
        | some pf =>
          [args.userFolder, args.resourceFolder].map fun sf =>
            "keeper folder move \"/" ++ sf ++ "\" \"/" ++ pf ++ "/" ++ sf ++ "\""
        | none => [])

/-- The `--config` argument `"/{resource_folder}"` shared by the connection
and rotation writers. -/
def cfgPath (args : Args) : String :=
  "\"/" ++ args.resourceFolder ++ "\""

/-- One command line of `write_connection_commands`, as a function of the
row's hostname (`host = row["hostname"]` is the only row field it uses). -/
def connectionLineOfHost (args : Args) (host : String) : String :=
  "keeper pam connection edit " ++ ("\"/" ++ args.resourceFolder ++ "/"
      ++ host ++ "\"")
    ++ " --config " ++ cfgPath args
    ++ " --admin-user " ++ ("\"/" ++ args.userFolder ++ "/" ++ host
      ++ " Local Admin\"")
    ++ " --protocol " ++ protoStr args.protocol
    ++ " --connections on --connections-override-port "
    ++ toString (_DEFAULT_PORTS args.protocol)

/-- One command line of `write_connection_commands` for one row. -/
def connectionLine (args : Args) (row : Row) : String :=
  connectionLineOfHost args row.hostname

/-- The line list of `write_connection_commands`. -/
def connectionLines (rows : List Row) (args : Args) (ts : String) : List String :=
  _cmdfile_header "CONNECTIONS" ts :: rows.map (connectionLine args)

/-- `args.schedulejson.replace("'", '"')`: Python `str.replace` with a
one-character pattern substitutes every occurrence of that character, i.e.
maps the quote character over the string. -/
def schedJson (s : String) : String :=
  ⟨s.data.map fun c => if c = '\'' then '"' else c⟩

/-- The ` --admin-user {uid}` fragment of a rotation line, empty when no
`--rotation-admin-uid` was supplied. -/
def admFlag (args : Args) : String :=
  match args.rotationAdminUid with
  | some uid => " --admin-user " ++ uid
  | none => ""

/-- One command line of `write_rotation_commands`, as a function of the
row's hostname (`host = row["hostname"]` is the only row field it uses),
ending in the `-sj '<schedule-json>'` fragment. -/
def rotationLineOfHost (args : Args) (host : String) : String :=
  "keeper pam rotation set --record " ++ ("\"/" ++ args.userFolder ++ "/"
      ++ host ++ " Local Admin\"")
    ++ " --resource " ++ ("\"/" ++ args.resourceFolder ++ "/"
      ++ host ++ "\"")
    ++ " --config " ++ cfgPath args ++ " --enable" ++ admFlag args ++ " "
    ++ ("-sj '" ++ schedJson args.schedulejson ++ "'")

/-- One command line of `write_rotation_commands` for one row. -/
def rotationLine (args : Args) (row : Row) : String :=
  rotationLineOfHost args row.hostname

/-- The line list of `write_rotation_commands`. -/
def rotationLines (rows : List Row) (args : Args) (ts : String) : List String :=
  _cmdfile_header "ROTATION" ts :: rows.map (rotationLine args)

/-! ## Reachability probe and orchestrator -/

/-- `_probe(host, port, timeout)`: `socket.create_connection` is an external
collaborator, embedded as an outcome oracle `net` returning either success
or an `OSError` payload (timeouts included — `socket.timeout` is an
`OSError`); the probe returns `true` on success and collapses every error
to `false`. -/
def _probe {τ : Type} (net : String → Nat → τ → Except String Unit)
    (host : String) (port : Nat) (timeout : τ) : Bool :=
  match net host port timeout with
  | Except.ok _ => true
  | Except.error _ => false

/-- The probe call `main` submits for a row: `_probe(r["hostname"])`, the
port and timeout defaulted (`port = 5986`, `timeout = 3.0`). -/
def mainProbeCall {τ : Type} (net : String → Nat → τ → Except String Unit)
    (timeout : τ) (row : Row) : Bool :=
  _probe net row.hostname 5986 timeout

/-- The connectivity-check filter of `main`: futures are submitted one per
row, `as_completed` yields them in completion order (`order`, a permutation
of the row indices), and a row is appended to `ok` when its probe returned
`true`.  `reach` is the probe outcome per hostname. -/
def connectivityFilter (reach : String → Bool) (rows : List Row)
    (order : List Nat) : List Row :=
  (order.filterMap fun i => rows.get? i).filter fun r => reach r.hostname

/-- The (path, content) writes `main` performs through `_write`, in order:
the JSON document, setup, connection and rotation command files.  `dumps` stands
for `json.dumps(wrapper, indent=2)`, external to the script. -/
def mainWrites (dumps : Json → String) (uids : Nat → String) (ts : String)
    (args : Args) (rows : List Row) : List (String × String) :=
  let records := _gen_records uids rows args
  _write "pam_records_import.json" (dumps (importJson records)) args.dryRun
    ++ _write "pam_setup_commands.txt" (joinLines (setupLines args ts)) args.dryRun
    ++ _write "pam_connection_commands.txt" (joinLines (connectionLines rows args ts)) args.dryRun
    ++ _write "pam_rotation_commands.txt" (joinLines (rotationLines rows args ts)) args.dryRun

/-- Every path the process creates or writes in one run: the module-level
`logging.FileHandler(Path(f"bulk_onboard_{...}.log"))` opens (and creates)
the log file unconditionally at import time, before `main` runs; then the
four writers go through `_write`. -/
def runTouchedPaths (dumps : Json → String) (uids : Nat → String) (ts : String)
    (logPath : String) (args : Args) (rows : List Row) : List String :=
  logPath :: (mainWrites dumps uids ts args rows).map Prod.fst

/-! ## Helper lemmas -/

/-- Unfolding of the `_read_csv` loop: the entries are the complete rows in
order, trimmed; the warnings carry the 1-based numbers of incomplete rows. -/
theorem read_csv_aux_eq (raws : List RawRow) (n : Nat) :
    _read_csv_aux raws n =
      ((raws.filter rowComplete).map toEntry,
       ((raws.enumFrom n).filter fun p => !rowComplete p.2).map Prod.fst) := by
  induction raws generalizing n with
  | nil => rfl
  | cons r rs ih =>
    simp only [_read_csv_aux, ih, List.enumFrom, List.filter_cons, List.map]
    by_cases h : rowComplete r <;> simp [h]

/-- `_gen_records_aux` refines "drop repeated hostnames, then emit adjacent
pairs in order". -/
theorem gen_records_aux_eq (uids : Nat → String) (args : Args) :
    ∀ (rows : List Row) (seen : List String) (i : Nat),
      _gen_records_aux uids args rows seen i =
        recordPairs uids args (dedupByHost rows seen) i := by
  intro rows
  induction rows with
  | nil => intro seen i; rfl
  | cons row rows ih =>
    intro seen i
    by_cases h : row.hostname ∈ seen
    · simp only [_gen_records_aux, dedupByHost, if_pos h, ih]
    · simp only [_gen_records_aux, dedupByHost, if_neg h, recordPairs, ih]

theorem recordPairs_length (uids : Nat → String) (args : Args) :
    ∀ (rows : List Row) (i : Nat),
      (recordPairs uids args rows i).length = 2 * rows.length := by
  intro rows
  induction rows with
  | nil => intro i; rfl
  | cons row rows ih =>
    intro i
    simp only [recordPairs, List.length_cons, ih]
    omega

theorem dedupByHost_sublist :
    ∀ (rows : List Row) (seen : List String),
      List.Sublist (dedupByHost rows seen) rows := by
  intro rows
  induction rows with
  | nil => intro seen; simp [dedupByHost]
  | cons row rows ih =>
    intro seen
    by_cases h : row.hostname ∈ seen
    · simpa only [dedupByHost, if_pos h] using List.Sublist.cons row (ih seen)
    · simpa only [dedupByHost, if_neg h]
        using List.Sublist.cons₂ row (ih (row.hostname :: seen))

theorem mem_hostname_dedupByHost :
    ∀ (rows : List Row) (seen : List String) (h : String),
      h ∈ (dedupByHost rows seen).map Row.hostname ↔
        h ∈ rows.map Row.hostname ∧ h ∉ seen := by
  intro rows
  induction rows with
  | nil => intro seen h; simp [dedupByHost]
  | cons row rows ih =>
    intro seen h
    by_cases hm : row.hostname ∈ seen
    · simp only [dedupByHost, if_pos hm, ih, List.map, List.mem_cons]
      constructor
      · rintro ⟨h1, h2⟩; exact ⟨Or.inr h1, h2⟩
      · rintro ⟨h1 | h1, h2⟩
        · exact absurd hm (h1 ▸ h2)
        · exact ⟨h1, h2⟩
    · simp only [dedupByHost, if_neg hm, List.map, List.mem_cons, ih]
      constructor
      · rintro (rfl | ⟨h1, h2⟩)
        · exact ⟨Or.inl rfl, hm⟩
        · exact ⟨Or.inr h1, fun hc => h2 (Or.inr hc)⟩
      · rintro ⟨rfl | h1, h2⟩
        · exact Or.inl rfl
        · by_cases he : h = row.hostname
          · exact Or.inl he
          · exact Or.inr ⟨h1, by simp [he, h2]⟩

theorem nodup_hostname_dedupByHost :
    ∀ (rows : List Row) (seen : List String),
      ((dedupByHost rows seen).map Row.hostname).Nodup := by
  intro rows
  induction rows with
  | nil => intro seen; simp [dedupByHost]
  | cons row rows ih =>
    intro seen
    by_cases hm : row.hostname ∈ seen
    · simpa only [dedupByHost, if_pos hm] using ih seen
    · simp only [dedupByHost, if_neg hm, List.map, List.nodup_cons]
      refine ⟨fun hc => ?_, ih _⟩
      exact ((mem_hostname_dedupByHost rows _ _).mp hc).2 (List.mem_cons_self _ _)

/-- The number of kept first occurrences is the number of distinct
hostnames. -/
theorem dedupByHost_length (rows : List Row) :
    (dedupByHost rows []).length = (rows.map Row.hostname).dedup.length := by
  have hnodup := nodup_hostname_dedupByHost rows []
  have hsame : ((dedupByHost rows []).map Row.hostname).toFinset
      = (rows.map Row.hostname).toFinset := by
    ext h
    simp only [List.mem_toFinset, mem_hostname_dedupByHost rows [] h,
      List.not_mem_nil, not_false_iff, and_true]
  calc (dedupByHost rows []).length
      = ((dedupByHost rows []).map Row.hostname).length := (List.length_map _ _).symm
    _ = ((dedupByHost rows []).map Row.hostname).toFinset.card :=
        (List.toFinset_card_of_nodup hnodup).symm
    _ = (rows.map Row.hostname).toFinset.card := by rw [hsame]
    _ = (rows.map Row.hostname).dedup.length := List.card_toFinset _

/-! ## Claim theorems -/

/-- C5: the CSV loader exits with code 1 iff the path does not exist;
otherwise it returns, in CSV order, exactly the rows whose three fields are
non-empty after trimming, and each excluded row yields a warning carrying
its 1-based row number. -/
theorem read_csv_spec (pathExists : Bool) (raws : List RawRow) :
    (_read_csv pathExists raws = Except.error 1 ↔ pathExists = false)
    ∧ _read_csv pathExists raws =
        (if pathExists then Except.ok ((raws.filter rowComplete).map toEntry)
         else Except.error 1)
    ∧ readCsvWarnings raws =
        ((raws.enumFrom 1).filter fun p => !rowComplete p.2).map Prod.fst := by
  refine ⟨?_, ?_, ?_⟩
  · cases pathExists <;> simp [_read_csv]
  · cases pathExists <;> simp [_read_csv, read_csv_aux_eq]
  · simp [readCsvWarnings, read_csv_aux_eq]

/-- C1: the record generator emits, in input order, one `pamUser`
immediately followed by its `pamMachine` for the first occurrence of each
hostname and skips later duplicates; the kept entries form a subsequence of
the input and the output length is twice the number of distinct hostnames
(case-sensitive exact match). -/
theorem gen_records_spec (uids : Nat → String) (args : Args) (rows : List Row) :
    _gen_records uids rows args = recordPairs uids args (dedupByHost rows []) 0
    ∧ List.Sublist (dedupByHost rows []) rows
    ∧ (_gen_records uids rows args).length
        = 2 * (rows.map Row.hostname).dedup.length := by
  refine ⟨gen_records_aux_eq uids args rows [] 0, dedupByHost_sublist rows [], ?_⟩
  rw [_gen_records, gen_records_aux_eq uids args rows [] 0,
    recordPairs_length, dedupByHost_length]

/-! ## Record accessor computations -/

theorem typeOf_pamUserRec (uid : String) (args : Args) (row : Row) :
    (pamUserRec uid args row).typeOf = some "pamUser" := rfl

theorem typeOf_pamMachineRec (uid : String) (args : Args) (row : Row) :
    (pamMachineRec uid args row).typeOf = some "pamMachine" := rfl

theorem uidOf_pamUserRec (uid : String) (args : Args) (row : Row) :
    (pamUserRec uid args row).uidOf = some uid := rfl

theorem linksOf_pamMachineRec (uid : String) (args : Args) (row : Row) :
    (pamMachineRec uid args row).linksOf = some [uid] := rfl

theorem portOf_pamMachineRec (uid : String) (args : Args) (row : Row) :
    (pamMachineRec uid args row).portOf
      = some (toString (_DEFAULT_PORTS args.protocol)) := rfl

/-- In the pair list, every `pamMachine` at position `j` has exactly one
link, the `uid` of a `pamUser` at an earlier position. -/
theorem recordPairs_links (uids : Nat → String) (args : Args) :
    ∀ (rows : List Row) (i j : Nat) (rec : Json),
      (recordPairs uids args rows i).get? j = some rec →
      rec.typeOf = some "pamMachine" →
      ∃ u, rec.linksOf = some [u] ∧
        ∃ k, k < j ∧ ∃ urec, (recordPairs uids args rows i).get? k = some urec ∧
          urec.typeOf = some "pamUser" ∧ urec.uidOf = some u := by
  intro rows
  induction rows with
  | nil => intro i j rec hget; simp [recordPairs] at hget
  | cons row rows ih =>
    intro i j rec hget htype
    match j with
    | 0 =>
      simp only [recordPairs, List.get?] at hget
      rw [← Option.some_inj.mp hget] at htype
      simp [typeOf_pamUserRec] at htype
    | 1 =>
      simp only [recordPairs, List.get?] at hget
      refine ⟨uids i, ?_, 0, Nat.zero_lt_one, pamUserRec (uids i) args row,
        rfl, typeOf_pamUserRec _ _ _, uidOf_pamUserRec _ _ _⟩
      rw [← Option.some_inj.mp hget]
      exact linksOf_pamMachineRec _ _ _
    | Nat.succ (Nat.succ j') =>
      simp only [recordPairs, List.get?] at hget
      obtain ⟨u, hlinks, k, hk, urec, hurec, hutype, huid⟩ :=
        ih (i + 1) j' rec hget htype
      exact ⟨u, hlinks, k + 2, by omega, urec, hurec, hutype, huid⟩

/-- C2: the serialized import document holds exactly the keys
`shared_folders` (an empty array) and `records`; every `pamMachine` record's
`links` array holds exactly one identifier, the `uid` of a `pamUser`
appearing earlier in the records array (its paired credential). -/
theorem import_json_spec (uids : Nat → String) (args : Args) (rows : List Row) :
    importJson (_gen_records uids rows args) =
      Json.obj [("shared_folders", Json.arr []),
                ("records", Json.arr (_gen_records uids rows args))]
    ∧ ∀ (j : Nat) (rec : Json),
        (_gen_records uids rows args).get? j = some rec →
        rec.typeOf = some "pamMachine" →
        ∃ u, rec.linksOf = some [u] ∧
          ∃ k, k < j ∧
            ∃ urec, (_gen_records uids rows args).get? k = some urec ∧
              urec.typeOf = some "pamUser" ∧ urec.uidOf = some u := by
  refine ⟨rfl, fun j rec hget htype => ?_⟩
  rw [_gen_records, gen_records_aux_eq uids args rows [] 0] at hget ⊢
  exact recordPairs_links uids args _ 0 j rec hget htype

/-- Closed instance of C2's link property at a concrete input. -/
theorem import_json_spec_witness :
    ∃ u, (pamMachineRec "u0" {gatewayUid := "GW"} ⟨"h1", "adm", "pw"⟩).linksOf
        = some [u] ∧
      ∃ k, k < 1 ∧
        ∃ urec, (_gen_records (fun _ => "u0") [⟨"h1", "adm", "pw"⟩]
            {gatewayUid := "GW"}).get? k = some urec ∧
          urec.typeOf = some "pamUser" ∧ urec.uidOf = some u :=
  (import_json_spec (fun _ => "u0") {gatewayUid := "GW"}
    [⟨"h1", "adm", "pw"⟩]).2 1 _ rfl rfl

/-! ## Connectivity filtering -/

theorem range_filterMap_get {α : Type} :
    ∀ l : List α, (List.range l.length).filterMap l.get? = l := by
  intro l
  induction l with
  | nil => rfl
  | cons x xs ih =>
    rw [List.length_cons, List.range_succ_eq_map, List.filterMap_cons,
      List.filterMap_map]
    have hcomp : ((x :: xs).get? ∘ Nat.succ) = xs.get? := by
      funext i; rfl
    simp only [List.get?, hcomp, ih]

/-- C3 counterexample: with entries `A, B, C, D`, `B` and `D` unreachable
and completion order `C, A, B, D` (a permutation of the submission
indices), the filtered list `main` builds is `[C, A]`, not the stable
subsequence `[A, C]` the claim states. -/
theorem connectivity_filter_cex :
    List.Perm [2, 0, 1, 3] (List.range 4)
    ∧ ([⟨"A", "u", "p"⟩, ⟨"B", "u", "p"⟩, ⟨"C", "u", "p"⟩,
        ⟨"D", "u", "p"⟩] : List Row).filter
          (fun r => r.hostname == "A" || r.hostname == "C")
        = [⟨"A", "u", "p"⟩, ⟨"C", "u", "p"⟩]
    ∧ connectivityFilter (fun h => h == "A" || h == "C")
        [⟨"A", "u", "p"⟩, ⟨"B", "u", "p"⟩, ⟨"C", "u", "p"⟩, ⟨"D", "u", "p"⟩]
        [2, 0, 1, 3]
        = [⟨"C", "u", "p"⟩, ⟨"A", "u", "p"⟩]
    ∧ connectivityFilter (fun h => h == "A" || h == "C")
        [⟨"A", "u", "p"⟩, ⟨"B", "u", "p"⟩, ⟨"C", "u", "p"⟩, ⟨"D", "u", "p"⟩]
        [2, 0, 1, 3]
        ≠ [⟨"A", "u", "p"⟩, ⟨"C", "u", "p"⟩] := by
  refine ⟨by decide, by decide, rfl, by decide⟩

/-- C3 amended: the reachability-filtered list contains exactly the entries
whose probe returned true, but in probe completion order — a permutation of
the stable CSV-order subsequence, equal to it when probes complete in
submission order. -/
theorem connectivity_filter_perm (reach : String → Bool) (rows : List Row)
    (order : List Nat) (horder : order.Perm (List.range rows.length)) :
    (connectivityFilter reach rows order).Perm
      (rows.filter fun r => reach r.hostname)
    ∧ connectivityFilter reach rows (List.range rows.length)
        = rows.filter fun r => reach r.hostname := by
  constructor
  · have h1 : (order.filterMap rows.get?).Perm
        ((List.range rows.length).filterMap rows.get?) :=
      horder.filterMap rows.get?
    rw [range_filterMap_get rows] at h1
    exact h1.filter _
  · rw [connectivityFilter, range_filterMap_get rows]

/-- Closed instance of C3's amended statement at a concrete input. -/
theorem connectivity_filter_perm_witness :
    (connectivityFilter (fun h => h == "A")
        [⟨"A", "u", "p"⟩, ⟨"B", "u", "p"⟩] [1, 0]).Perm
      ([⟨"A", "u", "p"⟩, ⟨"B", "u", "p"⟩].filter fun r => r.hostname == "A")
    ∧ connectivityFilter (fun h => h == "A")
        [⟨"A", "u", "p"⟩, ⟨"B", "u", "p"⟩]
        (List.range ([⟨"A", "u", "p"⟩, ⟨"B", "u", "p"⟩] : List Row).length)
        = [⟨"A", "u", "p"⟩, ⟨"B", "u", "p"⟩].filter fun r => r.hostname == "A" :=
  connectivity_filter_perm (fun h => h == "A")
    [⟨"A", "u", "p"⟩, ⟨"B", "u", "p"⟩] [1, 0] (by decide)

/-! ## Dry-run effects -/

/-- C4 counterexample: even with `--dry-run` set, one file is still created
on a run over an empty directory — the module-level
`logging.FileHandler` opens (creating) the timestamped log file before
`main` runs; so the touched-path set is not empty as the claim states. -/
theorem dry_run_cex :
    runTouchedPaths (fun _ => "") (fun _ => "") "2025-01-01T00:00Z"
        "bulk_onboard_20250101T000000Z.log"
        {gatewayUid := "GW", dryRun := true} []
      = ["bulk_onboard_20250101T000000Z.log"]
    ∧ runTouchedPaths (fun _ => "") (fun _ => "") "2025-01-01T00:00Z"
        "bulk_onboard_20250101T000000Z.log"
        {gatewayUid := "GW", dryRun := true} []
      ≠ ([] : List String) := by
  refine ⟨rfl, ?_⟩
  intro h
  exact List.cons_ne_nil _ _ ((rfl :
    runTouchedPaths (fun _ => "") (fun _ => "") "2025-01-01T00:00Z"
      "bulk_onboard_20250101T000000Z.log"
      {gatewayUid := "GW", dryRun := true} []
      = ["bulk_onboard_20250101T000000Z.log"]) ▸ h)

/-- C4 amended: with the dry-run flag set, the shared write primitive
performs no filesystem write, so none of the four output files is written
or created; the only path the run still creates is the startup log file
opened by the module-level `FileHandler`. -/
theorem dry_run_spec (dumps : Json → String) (uids : Nat → String)
    (ts logPath : String) (args : Args) (rows : List Row)
    (hdry : args.dryRun = true) :
    mainWrites dumps uids ts args rows = []
    ∧ runTouchedPaths dumps uids ts logPath args rows = [logPath]
    ∧ ∀ fpath content, _write fpath content true = [] := by
  refine ⟨?_, ?_, fun _ _ => rfl⟩
  · simp [mainWrites, _write, hdry]
  · simp [runTouchedPaths, mainWrites, _write, hdry]

/-- Closed instance of C4's amended statement at a concrete input. -/
theorem dry_run_spec_witness :
    mainWrites (fun _ => "") (fun _ => "") "ts"
        {gatewayUid := "GW", dryRun := true} [⟨"h1", "adm", "pw"⟩] = []
    ∧ runTouchedPaths (fun _ => "") (fun _ => "") "ts" "run.log"
        {gatewayUid := "GW", dryRun := true} [⟨"h1", "adm", "pw"⟩]
      = ["run.log"]
    ∧ ∀ fpath content, _write fpath content true = [] :=
  dry_run_spec (fun _ => "") (fun _ => "") "ts" "run.log"
    {gatewayUid := "GW", dryRun := true} [⟨"h1", "adm", "pw"⟩] rfl

/-! ## Rotation schedule fragment -/

/-- C6: each rotation command line ends with the fragment
`-sj '<schedule-json>'`, where `<schedule-json>` is the `--schedulejson`
input with every single quote naively replaced by a double quote, so the
emitted fragment's schedule text contains no single quote — whatever
quoting the input used. -/
theorem rotation_sched_spec (args : Args) (rows : List Row) (ts : String) :
    rotationLines rows args ts
      = _cmdfile_header "ROTATION" ts :: rows.map (rotationLine args)
    ∧ (schedJson args.schedulejson).data
        = args.schedulejson.data.map (fun c => if c = '\'' then '"' else c)
    ∧ (∀ c ∈ (schedJson args.schedulejson).data, c ≠ '\'')
    ∧ ∀ row ∈ rows, ∃ p, rotationLine args row
        = p ++ ("-sj '" ++ schedJson args.schedulejson ++ "'") := by
  refine ⟨rfl, rfl, fun c hc => ?_, fun row _ => ⟨_, rfl⟩⟩
  have : ∃ a ∈ args.schedulejson.data,
      (if a = '\'' then '"' else a) = c := by
    simpa [schedJson] using hc
  obtain ⟨a, _, ha⟩ := this
  by_cases h : a = '\''
  · rw [if_pos h] at ha; rw [← ha]; decide
  · rw [if_neg h] at ha; rw [← ha]; exact h

/-- Closed instance of C6 at a concrete single-quoted schedule input. -/
theorem rotation_sched_spec_witness :
    (∀ c ∈ (schedJson "\x7b'type':'DAILY'\x7d").data, c ≠ '\'')
    ∧ ∀ row ∈ ([⟨"h1", "adm", "pw"⟩] : List Row), ∃ p,
        rotationLine {gatewayUid := "GW", schedulejson := "\x7b'type':'DAILY'\x7d"} row
          = p ++ ("-sj '" ++ schedJson "\x7b'type':'DAILY'\x7d" ++ "'") :=
  ⟨(rotation_sched_spec {gatewayUid := "GW", schedulejson := "\x7b'type':'DAILY'\x7d"}
      [⟨"h1", "adm", "pw"⟩] "ts").2.2.1,
   (rotation_sched_spec {gatewayUid := "GW", schedulejson := "\x7b'type':'DAILY'\x7d"}
      [⟨"h1", "adm", "pw"⟩] "ts").2.2.2⟩

/-! ## Reachability probe -/

/-- C8: the probe is a total Boolean function of the connection outcome:
`true` exactly when the connection attempt succeeds, `false` on every
connection error or timeout (all `OSError`s are caught, none propagates);
and `main` submits the probe at the fixed management port 5986, which is
none of the protocol service ports. -/
theorem probe_spec {τ : Type} (net : String → Nat → τ → Except String Unit)
    (host : String) (port : Nat) (timeout : τ) :
    (_probe net host port timeout = true
      ↔ net host port timeout = Except.ok ())
    ∧ (_probe net host port timeout = false
      ↔ ∃ e, net host port timeout = Except.error e)
    ∧ (∀ row : Row, mainProbeCall net timeout row
        = _probe net row.hostname 5986 timeout)
    ∧ ∀ p : Protocol, _DEFAULT_PORTS p ≠ 5986 := by
  refine ⟨?_, ?_, fun _ => rfl, fun p => by cases p <;> decide⟩
  · cases hn : net host port timeout with
    | ok u => cases u; simp [_probe, hn]
    | error e => simp [_probe, hn]
  · cases hn : net host port timeout with
    | ok u => cases u; simp [_probe, hn]
    | error e => simp [_probe, hn]

/-- Closed instance of C8 at concrete outcomes: a succeeding connection
yields `true`, a timing-out one yields `false`. -/
theorem probe_spec_witness :
    (_probe (fun _ _ _ => Except.ok ()) "web1" 5986 3 = true
      ↔ (fun (_ : String) (_ : Nat) (_ : Nat) =>
          (Except.ok () : Except String Unit)) "web1" 5986 3 = Except.ok ())
    ∧ (_probe (fun _ _ _ => Except.error "timed out") "web1" 5986 3 = false
      ↔ ∃ e, (fun (_ : String) (_ : Nat) (_ : Nat) =>
          (Except.error "timed out" : Except String Unit)) "web1" 5986 3
            = Except.error e) :=
  ⟨(probe_spec (fun _ _ _ => Except.ok ()) "web1" 5986 3).1,
   (probe_spec (fun _ _ _ => Except.error "timed out") "web1" 5986 3).2.1⟩

/-! ## Serialization round trip -/

/-- The observables of one record object a consumer reads back from the
parsed document: its type tag, title and links. -/
def Json.observables (j : Json) :
    Option String × Option String × Option (List String) :=
  (j.typeOf, j.titleOf, j.linksOf)

/-- Reading the `records` key back from the parsed import document. -/
def docRecords (doc : Json) : Option (List Json) :=
  match doc.getField "records" with
  | some (.arr rs) => some rs
  | _ => none

/-- Count and per-record observables read back from the parsed document. -/
def docObservables (doc : Json) :
    Option (Nat × List (Option String × Option String × Option (List String))) :=
  match docRecords doc with
  | some rs => some (rs.length, rs.map Json.observables)
  | none => none

/-- C9: serializing the generated records into the import document and
parsing it back is the identity on the record list, hence on record count,
titles and machine-to-user link relationships.  `json.dumps` followed by
`json.loads` is the Python standard library's round trip, the identity on
these object/array/string/bool trees; the document is embedded at that
tree level. -/
theorem import_json_roundtrip (uids : Nat → String) (args : Args)
    (rows : List Row) :
    (∀ records : List Json,
      docRecords (importJson records) = some records
      ∧ docObservables (importJson records)
          = some (records.length, records.map Json.observables))
    ∧ docObservables (importJson (_gen_records uids rows args))
        = some ((_gen_records uids rows args).length,
            (_gen_records uids rows args).map Json.observables) := by
  exact ⟨fun records => ⟨rfl, rfl⟩, rfl⟩

/-! ## Ports and the concrete mysql scenario -/

/-- Every element of the pair list is a `pamUser` or a `pamMachine` built
from some input row. -/
theorem mem_recordPairs (uids : Nat → String) (args : Args) :
    ∀ (rows : List Row) (i : Nat) (rec : Json),
      rec ∈ recordPairs uids args rows i →
      (∃ k row, row ∈ rows ∧ rec = pamUserRec (uids k) args row)
        ∨ ∃ k row, row ∈ rows ∧ rec = pamMachineRec (uids k) args row := by
  intro rows
  induction rows with
  | nil => intro i rec h; simp [recordPairs] at h
  | cons row rows ih =>
    intro i rec h
    simp only [recordPairs, List.mem_cons] at h
    rcases h with rfl | rfl | h
    · exact Or.inl ⟨i, row, List.mem_cons_self _ _, rfl⟩
    · exact Or.inr ⟨i, row, List.mem_cons_self _ _, rfl⟩
    rcases ih (i + 1) rec h with ⟨k, r, hr, heq⟩ | ⟨k, r, hr, heq⟩
    · exact Or.inl ⟨k, r, List.mem_cons_of_mem _ hr, heq⟩
    · exact Or.inr ⟨k, r, List.mem_cons_of_mem _ hr, heq⟩

/-- C7: on the four CSV rows `(web1,admin,Pw1!)`, `(web1,admin,Pw2!)`,
`(db1,,Pw3!)`, `(app1,root,Pw4!)` with protocol mysql, the loader keeps
three rows (db1 incomplete), the generator emits exactly 2 record pairs
(web1's second row dropped as duplicate), and app1's machine record carries
port `"3306"`; in general every `pamMachine` carries the configured
protocol's fixed default port, the mapping being rdp→3389, ssh→22,
sql-server→1433, mysql→3306, postgresql→5432 over that closed enum. -/
theorem scenario_mysql_spec (uids : Nat → String) :
    _read_csv true
        [⟨"web1", "admin", "Pw1!"⟩, ⟨"web1", "admin", "Pw2!"⟩,
         ⟨"db1", "", "Pw3!"⟩, ⟨"app1", "root", "Pw4!"⟩]
      = Except.ok [⟨"web1", "admin", "Pw1!"⟩, ⟨"web1", "admin", "Pw2!"⟩,
          ⟨"app1", "root", "Pw4!"⟩]
    ∧ (_gen_records uids
        [⟨"web1", "admin", "Pw1!"⟩, ⟨"web1", "admin", "Pw2!"⟩,
         ⟨"app1", "root", "Pw4!"⟩]
        {gatewayUid := "GW", protocol := .mysql}).length = 4
    ∧ (_gen_records uids
        [⟨"web1", "admin", "Pw1!"⟩, ⟨"web1", "admin", "Pw2!"⟩,
         ⟨"app1", "root", "Pw4!"⟩]
        {gatewayUid := "GW", protocol := .mysql}).map Json.typeOf
      = [some "pamUser", some "pamMachine", some "pamUser", some "pamMachine"]
    ∧ (_gen_records uids
        [⟨"web1", "admin", "Pw1!"⟩, ⟨"web1", "admin", "Pw2!"⟩,
         ⟨"app1", "root", "Pw4!"⟩]
        {gatewayUid := "GW", protocol := .mysql}).map Json.titleOf
      = [some "web1 Local Admin", some "web1",
         some "app1 Local Admin", some "app1"]
    ∧ ((_gen_records uids
        [⟨"web1", "admin", "Pw1!"⟩, ⟨"web1", "admin", "Pw2!"⟩,
         ⟨"app1", "root", "Pw4!"⟩]
        {gatewayUid := "GW", protocol := .mysql}).get? 3).bind Json.portOf
      = some "3306"
    ∧ (∀ (args : Args) (rows : List Row) (rec : Json),
        rec ∈ _gen_records uids rows args →
        rec.typeOf = some "pamMachine" →
        rec.portOf = some (toString (_DEFAULT_PORTS args.protocol)))
    ∧ _DEFAULT_PORTS .rdp = 3389 ∧ _DEFAULT_PORTS .ssh = 22
    ∧ _DEFAULT_PORTS .sqlServer = 1433 ∧ _DEFAULT_PORTS .mysql = 3306
    ∧ _DEFAULT_PORTS .postgresql = 5432 := by
  refine ⟨rfl, rfl, rfl, rfl, rfl, ?_, rfl, rfl, rfl, rfl, rfl⟩
  intro args rows rec hmem htype
  rw [_gen_records, gen_records_aux_eq uids args rows [] 0] at hmem
  rcases mem_recordPairs uids args _ 0 rec hmem with ⟨k, r, _, rfl⟩ | ⟨k, r, _, rfl⟩
  · rw [typeOf_pamUserRec] at htype
    simp at htype
  · exact portOf_pamMachineRec _ _ _

/-- Closed instance of C7's general port property: a machine record
generated under the default rdp protocol carries port `"3389"`. -/
theorem scenario_mysql_spec_witness :
    (pamMachineRec "u0" {gatewayUid := "GW"} ⟨"h1", "adm", "pw"⟩).portOf
      = some "3389" :=
  (scenario_mysql_spec (fun _ => "u0")).2.2.2.2.2.1 {gatewayUid := "GW"}
    [⟨"h1", "adm", "pw"⟩] _ (by simp [_gen_records, _gen_records_aux]) rfl

/-! ## Per-entry command lines (no deduplication) -/

theorem string_data_eq {s t : String} (h : s.data = t.data) : s = t := by
  cases s; cases t; exact congrArg String.mk h

/-- A string template that mentions its hole twice is injective in the
hole. -/
theorem template_inj (a b c : String) (h1 h2 : String)
    (heq : a ++ h1 ++ b ++ h1 ++ c = a ++ h2 ++ b ++ h2 ++ c) : h1 = h2 := by
  have hd : a.data ++ (h1.data ++ (b.data ++ (h1.data ++ c.data)))
      = a.data ++ (h2.data ++ (b.data ++ (h2.data ++ c.data))) := by
    have h0 := congrArg String.data heq
    simpa [String.data_append, List.append_assoc] using h0
  have hlen : h1.data.length = h2.data.length := by
    have h0 := congrArg List.length hd
    simp only [List.length_append] at h0
    omega
  exact string_data_eq (List.append_inj (List.append_cancel_left hd) hlen).1

theorem connectionLineOfHost_template (args : Args) (host : String) :
    connectionLineOfHost args host
      = ("keeper pam connection edit " ++ "\"/" ++ args.resourceFolder ++ "/")
        ++ host
        ++ ("\"" ++ " --config " ++ cfgPath args ++ " --admin-user "
            ++ "\"/" ++ args.userFolder ++ "/")
        ++ host
        ++ (" Local Admin\"" ++ " --protocol " ++ protoStr args.protocol
            ++ " --connections on --connections-override-port "
            ++ toString (_DEFAULT_PORTS args.protocol)) := by
  simp only [connectionLineOfHost, String.append_assoc]

theorem connectionLineOfHost_inj (args : Args) :
    Function.Injective (connectionLineOfHost args) := by
  intro h1 h2 heq
  rw [connectionLineOfHost_template, connectionLineOfHost_template] at heq
  exact template_inj _ _ _ h1 h2 heq

theorem rotationLineOfHost_template (args : Args) (host : String) :
    rotationLineOfHost args host
      = ("keeper pam rotation set --record " ++ "\"/" ++ args.userFolder ++ "/")
        ++ host
        ++ (" Local Admin\"" ++ " --resource " ++ "\"/"
            ++ args.resourceFolder ++ "/")
        ++ host
        ++ ("\"" ++ " --config " ++ cfgPath args ++ " --enable" ++ admFlag args
            ++ " " ++ "-sj '" ++ schedJson args.schedulejson ++ "'") := by
  simp only [rotationLineOfHost, String.append_assoc]

theorem rotationLineOfHost_inj (args : Args) :
    Function.Injective (rotationLineOfHost args) := by
  intro h1 h2 heq
  rw [rotationLineOfHost_template, rotationLineOfHost_template] at heq
  exact template_inj _ _ _ h1 h2 heq

/-- C10: the connection and rotation writers emit, after the header, exactly
one command line per entry of the post-filter row list, with no hostname
deduplication: a hostname occurring k times among the valid rows yields
exactly k copies of its command line in each file, although the deduplicated
record set keeps that hostname at most once. -/
theorem command_files_per_entry (args : Args) (rows : List Row) (ts : String) :
    connectionLines rows args ts
      = _cmdfile_header "CONNECTIONS" ts :: rows.map (connectionLine args)
    ∧ rotationLines rows args ts
      = _cmdfile_header "ROTATION" ts :: rows.map (rotationLine args)
    ∧ (rows.map (connectionLine args)).length = rows.length
    ∧ (rows.map (rotationLine args)).length = rows.length
    ∧ (∀ host : String,
        List.count (connectionLineOfHost args host)
            (rows.map (connectionLine args))
          = List.count host (rows.map Row.hostname))
    ∧ (∀ host : String,
        List.count (rotationLineOfHost args host)
            (rows.map (rotationLine args))
          = List.count host (rows.map Row.hostname))
    ∧ ∀ host : String,
        List.count host ((dedupByHost rows []).map Row.hostname) ≤ 1 := by
  have hcmap : rows.map (connectionLine args)
      = (rows.map Row.hostname).map (connectionLineOfHost args) := by
    rw [List.map_map]; rfl
  have hrmap : rows.map (rotationLine args)
      = (rows.map Row.hostname).map (rotationLineOfHost args) := by
    rw [List.map_map]; rfl
  refine ⟨rfl, rfl, List.length_map _ _, List.length_map _ _, ?_, ?_, ?_⟩
  · intro host
    rw [hcmap,
      List.count_map_of_injective _ _ (connectionLineOfHost_inj args) host]
  · intro host
    rw [hrmap,
      List.count_map_of_injective _ _ (rotationLineOfHost_inj args) host]
  · exact List.nodup_iff_count_le_one.mp (nodup_hostname_dedupByHost rows [])

/-- Closed instance of C10's counting at a concrete duplicated input: the
hostname `web1` occurs twice among the valid rows, so the connection file
holds its command line twice while the record set keeps it once. -/
theorem command_files_per_entry_witness :
    (∀ host : String,
      List.count (connectionLineOfHost {gatewayUid := "GW"} host)
          (([⟨"web1", "a", "p"⟩, ⟨"web1", "b", "q"⟩] : List Row).map
            (connectionLine {gatewayUid := "GW"}))
        = List.count host
            (([⟨"web1", "a", "p"⟩, ⟨"web1", "b", "q"⟩] : List Row).map
              Row.hostname))
    ∧ List.count "web1"
        (([⟨"web1", "a", "p"⟩, ⟨"web1", "b", "q"⟩] : List Row).map
          Row.hostname) = 2 :=
  ⟨(command_files_per_entry {gatewayUid := "GW"}
      [⟨"web1", "a", "p"⟩, ⟨"web1", "b", "q"⟩] "ts").2.2.2.2.1, by decide⟩

end PamOnboard
